import Mathlib

/-!
Shallow embedding of the mqtt_wss_client repository core
(src/event_queue.h, src/mqtt_client.h, src/mqtt_client.cpp) and proofs
about the claims of its specification.

Conventions of the embedding:
* `std::queue<T>` protected by a single mutex is modelled as `List T`
  (front of the queue = head of the list); every queue operation in the
  source runs under the one mutex, so its effect is the pure state
  transformation modelled here.
* machine integers are modelled as `Int` (C++ `int` / `long long`);
  all arithmetic relevant to the claims stays far from overflow.
* fallible code (`throw std::runtime_error`) is modelled with `Except`.
* the Paho engine is opaque: its synchronous accept/reject answers and
  its liveness predicate are inputs to the modelled functions.
-/

namespace MqttWss

/-- `enum class EventType` from src/event_queue.h. -/
inductive EventType where
  | CONNECTED
  | CONNECTION_LOST
  | MESSAGE_ARRIVED
  | DELIVERY_COMPLETE
  | SUBSCRIBE_SUCCESS
  | SUBSCRIBE_FAILURE
  | PUBLISH_SUCCESS
  | PUBLISH_FAILURE
  | ERROR
  deriving DecidableEq, Repr

/-- `struct MQTTEvent` from src/event_queue.h: type plus the
kind-dependent fields topic, payload, message, qos, token. -/
structure MQTTEvent where
  type : EventType
  topic : String
  payload : String
  message : String
  qos : Int
  token : Int
  deriving DecidableEq, Repr

/-- The two-argument C++ constructor `MQTTEvent(EventType t, const std::string& msg)`:
only `type` and `message` are set, the rest keep their defaults. -/
def eventMsg (t : EventType) (msg : String) : MQTTEvent :=
  ⟨t, "", "", msg, 0, 0⟩

/-- The payload C++ constructor
`MQTTEvent(EventType t, topic, payload, qos)`. -/
def eventPayload (t : EventType) (topic payload : String) (qos : Int) : MQTTEvent :=
  ⟨t, topic, payload, "", qos, 0⟩

/-!  ## EventQueue (src/event_queue.h)

The queue state under its mutex is the list of events, head = front.
-/

/-- `EventQueue::push`: appends the event at the back of the queue
(`queue_.push(std::move(event))` under the lock). -/
def push (q : List MQTTEvent) (e : MQTTEvent) : List MQTTEvent :=
  q ++ [e]

/-- `EventQueue::try_pop`: if the queue is empty return `std::nullopt`
and leave the queue alone; otherwise remove and return the front.
Result is (returned value, queue state afterwards). -/
def try_pop (q : List MQTTEvent) : Option MQTTEvent × List MQTTEvent :=
  match q with
  | [] => (none, [])
  | e :: rest => (some e, rest)

/-- `EventQueue::pop(timeout)`: after `cv_.wait_for` the lock is held and
the wait predicate tells whether the queue is non-empty; the state
transformation at that moment is exactly `try_pop` — a non-empty queue
yields its front, an empty one yields `std::nullopt` with the queue
untouched.  The blocking window only affects timing, not the
transformation, so `pop` is modelled by the same function on the queue
contents observed when the wait ends. -/
def pop (q : List MQTTEvent) : Option MQTTEvent × List MQTTEvent :=
  try_pop q

/-- Pushing a whole list of events in order (repeated `push`). -/
def pushAll (q : List MQTTEvent) (es : List MQTTEvent) : List MQTTEvent :=
  es.foldl push q

/-- Draining the queue by repeated successful pops, collecting the
returned events in order. -/
def drain (q : List MQTTEvent) : List MQTTEvent :=
  match q with
  | [] => []
  | e :: rest => e :: drain rest

lemma pushAll_eq_append (q es : List MQTTEvent) : pushAll q es = q ++ es := by
  induction es generalizing q with
  | nil => simp [pushAll]
  | cons e es ih =>
      simp only [pushAll, List.foldl_cons] at *
      rw [ih (push q e)]
      simp [push]

lemma drain_eq (q : List MQTTEvent) : drain q = q := by
  induction q with
  | nil => simp [drain, try_pop]
  | cons e rest ih => simp [drain, try_pop, ih]

/-!  ## Work queue (MQTTClient, src/mqtt_client.h / mqtt_client.cpp)

`std::queue<WorkItem> work_queue_` under `work_mutex_`, modelled as a
list with head = front.  The Paho engine's synchronous accept/reject
answer for a dispatch (`MQTTAsync_subscribe` / `MQTTAsync_sendMessage` /
`MQTTAsync_unsubscribe` returning `MQTTASYNC_SUCCESS` or not) is an
input `engineAccepts : WorkItem → Bool`.
-/

/-- `MQTTClient::WorkItem::Type`. -/
inductive WorkType where
  | SUBSCRIBE
  | PUBLISH
  | UNSUBSCRIBE
  deriving DecidableEq, Repr

/-- `MQTTClient::WorkItem`. -/
structure WorkItem where
  type : WorkType
  topic : String
  payload : String
  qos : Int
  retained : Bool
  deriving DecidableEq, Repr

/-- `MQTTClient::request_subscribe`: enqueues a SUBSCRIBE item at the
back of the work queue under `work_mutex_`.  (`payload` stays the
default-constructed empty string; `retained` is unused by the
SUBSCRIBE dispatch and modelled as `false`.) -/
def request_subscribe (w : List WorkItem) (topic : String) (qos : Int) : List WorkItem :=
  w ++ [⟨.SUBSCRIBE, topic, "", qos, false⟩]

/-- `MQTTClient::request_publish`: enqueues a PUBLISH item at the back. -/
def request_publish (w : List WorkItem) (topic payload : String) (qos : Int)
    (retained : Bool) : List WorkItem :=
  w ++ [⟨.PUBLISH, topic, payload, qos, retained⟩]

/-- `MQTTClient::request_unsubscribe`: enqueues an UNSUBSCRIBE item at
the back.  (`qos`/`retained` are unused by the UNSUBSCRIBE dispatch.) -/
def request_unsubscribe (w : List WorkItem) (topic : String) : List WorkItem :=
  w ++ [⟨.UNSUBSCRIBE, topic, "", 0, false⟩]

/-- Events pushed by one dispatch inside `MQTTClient::process_requests`:
* SUBSCRIBE: on a non-`MQTTASYNC_SUCCESS` return code, push
  `SUBSCRIBE_FAILURE` with message `"Subscribe request failed: " + topic`;
* PUBLISH: likewise `PUBLISH_FAILURE` with
  `"Publish request failed: " + topic`;
* UNSUBSCRIBE: the source ignores the return code of
  `MQTTAsync_unsubscribe` and registers no success/failure callbacks, so
  no event is pushed whatever the engine answers. -/
def dispatch_events (engineAccepts : WorkItem → Bool) (item : WorkItem) : List MQTTEvent :=
  match item.type with
  | .SUBSCRIBE =>
      if engineAccepts item then []
      else [eventMsg .SUBSCRIBE_FAILURE ("Subscribe request failed: " ++ item.topic)]
  | .PUBLISH =>
      if engineAccepts item then []
      else [eventMsg .PUBLISH_FAILURE ("Publish request failed: " ++ item.topic)]
  | .UNSUBSCRIBE => []

/-- `MQTTClient::process_requests`: under `work_mutex_`, loop
`while (!work_queue_.empty() && connected_.load())`, pop the front item
and dispatch it to the engine.  Nothing in the loop body writes
`connected_` on this thread, so within one call the flag is a fixed
boolean input.  Result: (items dispatched in order, events pushed,
remaining queue). -/
def process_requests (connected : Bool) (engineAccepts : WorkItem → Bool) :
    List WorkItem → List WorkItem × List MQTTEvent × List WorkItem
  | [] => ([], [], [])
  | item :: rest =>
      if connected then
        let r := process_requests connected engineAccepts rest
        (item :: r.1, dispatch_events engineAccepts item ++ r.2.1, r.2.2)
      else ([], [], item :: rest)

/-- An engine that synchronously rejects every dispatch. -/
def rejectAll : WorkItem → Bool := fun _ => false

/-!  ## Session configuration (struct MQTTConfig, src/mqtt_client.h)  -/

/-- `struct MQTTConfig`.  C++ `int` fields are modelled as `Int`. -/
structure MQTTConfig where
  broker_host : String
  broker_port : Int
  client_id : String
  username : Option String
  password : Option String
  websocket_path : String
  keep_alive_seconds : Int
  qos : Int
  min_retry_interval : Int
  max_retry_interval : Int
  cert_file_path : Option String
  use_websockets : Bool
  use_ssl : Bool
  connection_check_interval_ms : Int
  deriving DecidableEq, Repr

/-- `MQTTConfig::get_protocol_string`. -/
def get_protocol_string (cfg : MQTTConfig) : String :=
  if cfg.use_websockets then
    if cfg.use_ssl then "wss" else "ws"
  else
    if cfg.use_ssl then "ssl" else "tcp"

/-- `MQTTConfig::get_default_port`. -/
def get_default_port (cfg : MQTTConfig) : Int :=
  if cfg.use_websockets then
    if cfg.use_ssl then 8883 else 8080
  else
    if cfg.use_ssl then 8883 else 1883

/-- Server-URI construction at the top of `MQTTClient::connect_to_broker`:
`<proto>://<host>:<port>` with `websocket_path` appended exactly when
WebSockets are selected. -/
def server_uri (cfg : MQTTConfig) : String :=
  if cfg.use_websockets then
    get_protocol_string cfg ++ "://" ++ cfg.broker_host ++ ":" ++
      toString cfg.broker_port ++ cfg.websocket_path
  else
    get_protocol_string cfg ++ "://" ++ cfg.broker_host ++ ":" ++
      toString cfg.broker_port

/-!  ## Health monitor (src/mqtt_client.cpp lines 240-322)  -/

/-- `expected_interval_sec` as computed inside
`MQTTClient::detect_sleep_resume`:
`config_.connection_check_interval_ms / 1000 + 1` (C++ integer
division). -/
def expected_interval_sec (cfg : MQTTConfig) : Int :=
  cfg.connection_check_interval_ms / 1000 + 1

/-- `MQTTClient::detect_sleep_resume`: under `activity_mutex_`, with
`elapsed` = whole seconds since `last_check_time_`, report a possible
sleep/resume exactly when `elapsed > expected_interval_sec * 3`
(both branches then refresh `last_check_time_`). -/
def detect_sleep_resume (cfg : MQTTConfig) (elapsed : Int) : Bool :=
  decide (elapsed > expected_interval_sec cfg * 3)

/-- Observable outcome of one `MQTTClient::check_connection_health`
invocation. -/
structure HealthResult where
  sleep_detected : Bool
  connected : Bool
  events : List MQTTEvent
  disconnect_issued : Bool
  activity_refreshed : Bool
  deriving DecidableEq, Repr

/-- `MQTTClient::check_connection_health`.  Inputs: the `connected_`
flag, the engine's `MQTTAsync_isConnected` answer, `elapsed_since_check`
= seconds since `last_check_time_`, `no_activity_sec` = seconds since
`last_activity_`.  Mirrors the source:
1. run `detect_sleep_resume`;
2. if not connected, return;
3. if the engine reports not connected, clear the flag and push
   `CONNECTION_LOST` "Stale connection detected";
4. if sleep was detected and `no_activity_sec > keep_alive_seconds * 2`,
   clear the flag and issue an explicit disconnect on a detached thread;
5. finally (when not returned early) refresh `last_activity_`. -/
def check_connection_health (cfg : MQTTConfig) (connected engine_connected : Bool)
    (elapsed_since_check no_activity_sec : Int) : HealthResult :=
  if connected = false then
    ⟨detect_sleep_resume cfg elapsed_since_check, connected, [], false, false⟩
  else if engine_connected = false then
    ⟨detect_sleep_resume cfg elapsed_since_check, false,
      [eventMsg .CONNECTION_LOST "Stale connection detected"], false, false⟩
  else if detect_sleep_resume cfg elapsed_since_check &&
      decide (no_activity_sec > cfg.keep_alive_seconds * 2) then
    ⟨detect_sleep_resume cfg elapsed_since_check, false, [], true, true⟩
  else
    ⟨detect_sleep_resume cfg elapsed_since_check, connected, [], false, true⟩

/-!  ## Theorems for claims C1, C10, C2, C6  -/

/-- C1: events pushed e1..en in order are returned by successive pops in
exactly that order (FIFO): draining the queue built by pushing `es` onto
the empty queue returns `es`, the i-th successful pop returns the i-th
pushed event, `pop` returns the available front item, and on an empty
queue it returns "no item" (`none`) — the result type has no error case. -/
theorem event_queue_fifo (es : List MQTTEvent) (i : Nat) :
    drain (pushAll [] es) = es ∧
    (drain (pushAll [] es))[i]? = es[i]? ∧
    (∀ q : List MQTTEvent, (pop q).1 = q.head?) ∧
    (∀ q : List MQTTEvent, ((pop q).1 = none ↔ q = [])) := by
  refine ⟨?_, ?_, ?_, ?_⟩
  · rw [pushAll_eq_append, List.nil_append, drain_eq]
  · rw [pushAll_eq_append, List.nil_append, drain_eq]
  · intro q; cases q <;> simp [pop, try_pop]
  · intro q; cases q <;> simp [pop, try_pop]

/-- C10: a pop that returns "no item" leaves the queue unchanged; a pop
that returns an item returns the current head and removes exactly that
element, keeping the rest in relative order (the queue was the returned
item consed on the remaining queue). -/
theorem pop_frame_effect (q : List MQTTEvent) :
    (∀ q2 : List MQTTEvent, try_pop q = (none, q2) → q2 = q) ∧
    (∀ (e : MQTTEvent) (q2 : List MQTTEvent), try_pop q = (some e, q2) →
      q.head? = some e ∧ q = e :: q2) ∧
    (∀ q2 : List MQTTEvent, pop q = (none, q2) → q2 = q) ∧
    (∀ (e : MQTTEvent) (q2 : List MQTTEvent), pop q = (some e, q2) →
      q.head? = some e ∧ q = e :: q2) := by
  cases q <;> refine ⟨?_, ?_, ?_, ?_⟩ <;>
    simp_all [pop, try_pop]

/-- A sample event used to instantiate frame-effect statements. -/
def evA : MQTTEvent := eventMsg .CONNECTED "x"

/-- Witness for C10 at the concrete one-element queue `[evA]`. -/
theorem pop_frame_effect_witness :
    [evA].head? = some evA ∧ [evA] = evA :: [] :=
  (pop_frame_effect [evA]).2.1 evA [] rfl

/-- C2: work items are never dispatched while the connected flag is
false (`process_requests` leaves the queue untouched and dispatches
nothing), and once the flag is true they are dispatched in their
original submission order (the dispatched list equals the queue
contents, and each `request_*` call appends at the back, so queue order
is submission order). -/
theorem work_dispatch_connected_gated (acc : WorkItem → Bool) (w : List WorkItem)
    (topic payload : String) (qos : Int) (retained : Bool) :
    process_requests false acc w = ([], [], w) ∧
    (process_requests true acc w).1 = w ∧
    request_subscribe w topic qos = w ++ [⟨.SUBSCRIBE, topic, "", qos, false⟩] ∧
    request_publish w topic payload qos retained =
      w ++ [⟨.PUBLISH, topic, payload, qos, retained⟩] ∧
    request_unsubscribe w topic = w ++ [⟨.UNSUBSCRIBE, topic, "", 0, false⟩] := by
  refine ⟨?_, ?_, rfl, rfl, rfl⟩
  · cases w <;> simp [process_requests]
  · induction w with
    | nil => simp [process_requests]
    | cons item rest ih => simp [process_requests, ih]

/-- C6 counterexample: an UNSUBSCRIBE work item whose dispatch the
engine rejects synchronously produces no event at all — in particular no
`*_FAILURE` event carrying the topic, and no terminal event ever (the
source registers no callbacks for unsubscribe and ignores its return
code), refuting the claim for unsubscribe requests. -/
theorem unsubscribe_rejected_no_event :
    process_requests true rejectAll [⟨.UNSUBSCRIBE, "t", "", 0, false⟩] =
      ([⟨.UNSUBSCRIBE, "t", "", 0, false⟩], [], []) := by
  simp [process_requests, dispatch_events, rejectAll]

/-- C6 amended: for SUBSCRIBE and PUBLISH work items a synchronous
engine rejection pushes exactly one failure event (`SUBSCRIBE_FAILURE` /
`PUBLISH_FAILURE`) whose message carries the topic, and an accepted
dispatch pushes nothing synchronously (its outcome arrives later via the
registered callbacks); UNSUBSCRIBE dispatches push no event whatever the
engine answers. -/
theorem dispatch_failure_events (acc : WorkItem → Bool) (item : WorkItem) :
    (item.type = .SUBSCRIBE → acc item = false →
      dispatch_events acc item =
        [eventMsg .SUBSCRIBE_FAILURE ("Subscribe request failed: " ++ item.topic)]) ∧
    (item.type = .PUBLISH → acc item = false →
      dispatch_events acc item =
        [eventMsg .PUBLISH_FAILURE ("Publish request failed: " ++ item.topic)]) ∧
    (acc item = true → dispatch_events acc item = []) ∧
    (item.type = .UNSUBSCRIBE → dispatch_events acc item = []) := by
  refine ⟨?_, ?_, ?_, ?_⟩ <;> intro h <;>
    first
      | (intro h2; simp [dispatch_events, h, h2])
      | (cases htype : item.type <;> simp [dispatch_events, h, htype])

/-- Witness for C6's amended theorem at a concrete rejected SUBSCRIBE
item. -/
theorem dispatch_failure_events_witness :
    dispatch_events rejectAll ⟨.SUBSCRIBE, "a", "", 1, false⟩ =
      [eventMsg .SUBSCRIBE_FAILURE "Subscribe request failed: a"] :=
  (dispatch_failure_events rejectAll ⟨.SUBSCRIBE, "a", "", 1, false⟩).1 rfl rfl

/-!  ## Theorems for claims C3, C8  -/

/-- C3: the possible-sleep/resume flag is raised exactly when the
elapsed time since the previous invocation exceeds 3× the expected poll
interval (the source's `expected_interval_sec`, derived from the
configured check interval); with a check interval of 1000 ms a
10-second gap raises the flag; and when additionally `lastActivity` is
stale beyond 2× the keep-alive interval while the session is marked
connected (and the engine still answers connected, the case the spec's
step 4 addresses), the connected flag is cleared and an explicit
disconnect is issued. -/
theorem health_sleep_detection (cfg : MQTTConfig) (connected engine_connected : Bool)
    (elapsed no_activity : Int) :
    ((check_connection_health cfg connected engine_connected elapsed
        no_activity).sleep_detected = true ↔
      elapsed > expected_interval_sec cfg * 3) ∧
    (cfg.connection_check_interval_ms = 1000 → detect_sleep_resume cfg 10 = true) ∧
    (detect_sleep_resume cfg elapsed = true →
      no_activity > cfg.keep_alive_seconds * 2 →
      (check_connection_health cfg true true elapsed no_activity).connected = false ∧
      (check_connection_health cfg true true elapsed no_activity).disconnect_issued = true) := by
  refine ⟨?_, ?_, ?_⟩
  · unfold check_connection_health
    split
    · simp [detect_sleep_resume]
    · split
      · simp [detect_sleep_resume]
      · split <;> simp [detect_sleep_resume]
  · intro h
    unfold detect_sleep_resume expected_interval_sec
    rw [h]
    decide
  · intro hs hn
    unfold check_connection_health
    rw [hs]
    simp [hn]

/-- A concrete configuration: WebSocket+TLS, 1000 ms health-check
interval, 20 s keep-alive (the source defaults). -/
def cfgHealth : MQTTConfig :=
  ⟨"broker.example", 8883, "cid", none, none, "/mqtt", 20, 1, 1, 60, none, true, true, 1000⟩

/-- Witness for C3: check interval 1000 ms, a 10-second gap, 50 s
without activity (> 2×20 s keep-alive): the flag is raised, the
connected flag is cleared, and a disconnect is issued. -/
theorem health_sleep_detection_witness :
    detect_sleep_resume cfgHealth 10 = true ∧
    (check_connection_health cfgHealth true true 10 50).connected = false ∧
    (check_connection_health cfgHealth true true 10 50).disconnect_issued = true := by
  refine ⟨(health_sleep_detection cfgHealth true true 10 50).2.1 rfl, ?_, ?_⟩
  · exact ((health_sleep_detection cfgHealth true true 10 50).2.2 (by decide) (by decide)).1
  · exact ((health_sleep_detection cfgHealth true true 10 50).2.2 (by decide) (by decide)).2

/-- C8: protocol string and default port are derived from the
transport × TLS selection as WebSocket+TLS→wss/8883,
WebSocket+plain→ws/8080, TCP+TLS→ssl/8883, TCP+plain→tcp/1883; the
server URI is `<proto>://<host>:<port>` with the websocket path appended
exactly when WebSockets are selected; and the concrete
WebSocket+TLS/broker.example:8883 configuration yields
`wss://broker.example:8883/mqtt`. -/
theorem protocol_port_uri (cfg : MQTTConfig) :
    (cfg.use_websockets = true → cfg.use_ssl = true →
      get_protocol_string cfg = "wss" ∧ get_default_port cfg = 8883) ∧
    (cfg.use_websockets = true → cfg.use_ssl = false →
      get_protocol_string cfg = "ws" ∧ get_default_port cfg = 8080) ∧
    (cfg.use_websockets = false → cfg.use_ssl = true →
      get_protocol_string cfg = "ssl" ∧ get_default_port cfg = 8883) ∧
    (cfg.use_websockets = false → cfg.use_ssl = false →
      get_protocol_string cfg = "tcp" ∧ get_default_port cfg = 1883) ∧
    server_uri cfg =
      get_protocol_string cfg ++ "://" ++ cfg.broker_host ++ ":" ++
        toString cfg.broker_port ++
        (if cfg.use_websockets then cfg.websocket_path else "") ∧
    server_uri cfgHealth = "wss://broker.example:8883/mqtt" := by
  refine ⟨?_, ?_, ?_, ?_, ?_, by decide⟩ <;>
    first
      | (intro hw hs; simp [get_protocol_string, get_default_port, hw, hs])
      | (unfold server_uri; cases hw : cfg.use_websockets <;> simp [hw])

/-- Witness for C8 at the concrete WebSocket+TLS configuration. -/
theorem protocol_port_uri_witness :
    get_protocol_string cfgHealth = "wss" ∧ get_default_port cfgHealth = 8883 :=
  (protocol_port_uri cfgHealth).1 rfl rfl

/-!  ## Base64 / PEM (src/mqtt_client.cpp lines 85-92 and 195-236)

`MQTTClient::base64_encode` walks the input three bytes at a time; a
trailing group of 1 or 2 bytes is zero-padded before indexing the
alphabet and then `'='` is appended until the group closes.  Bytes are
modelled as `Nat`; every alphabet index is masked, so no bound on the
byte values is needed.
-/

/-- The `base64_chars` table of `MQTTClient::base64_encode`
(RFC 4648 standard alphabet). -/
def base64_chars : List Char :=
  "ABCDEFGHIJKLMNOPQRSTUVWXYZabcdefghijklmnopqrstuvwxyz0123456789+/".toList

/-- Indexing `base64_chars` (all indices produced by the encoder are
< 64, proved below). -/
def b64char (n : Nat) : Char :=
  base64_chars.getD n '?'

/-- One full 3-byte group: the four sextet computations of the source's
main `while` loop. -/
def encode3 (b0 b1 b2 : Nat) : List Char :=
  [b64char ((b0 &&& 0xfc) >>> 2),
   b64char (((b0 &&& 0x03) <<< 4) + ((b1 &&& 0xf0) >>> 4)),
   b64char (((b1 &&& 0x0f) <<< 2) + ((b2 &&& 0xc0) >>> 6)),
   b64char (b2 &&& 0x3f)]

/-- `MQTTClient::base64_encode`.  The `[b0, b1]` case is the source's
`i == 2` tail (third byte zeroed, three alphabet characters, one `'='`);
the `[b0]` case is the `i == 1` tail (second and third bytes zeroed, two
alphabet characters, two `'='`). -/
def base64_encode : List Nat → List Char
  | b0 :: b1 :: b2 :: rest => encode3 b0 b1 b2 ++ base64_encode rest
  | [b0, b1] =>
      [b64char ((b0 &&& 0xfc) >>> 2),
       b64char (((b0 &&& 0x03) <<< 4) + ((b1 &&& 0xf0) >>> 4)),
       b64char ((b1 &&& 0x0f) <<< 2),
       '=']
  | [b0] =>
      [b64char ((b0 &&& 0xfc) >>> 2),
       b64char ((b0 &&& 0x03) <<< 4),
       '=', '=']
  | [] => []

/-- The 64-character-per-line body chunking of
`MQTTClient::extract_macos_certificates`
(`for j += 64: base64.substr(j, 64)`). -/
def chunks64 : List Char → List (List Char)
  | [] => []
  | c :: rest => ((c :: rest).take 64) :: chunks64 ((c :: rest).drop 64)
termination_by s => s.length
decreasing_by simp [List.length_drop]; omega

/-- The PEM armor written by `extract_macos_certificates` around one
certificate body: BEGIN line, base64 body in 64-character lines each
followed by a newline, END line. -/
def pem_armor (der : List Nat) : String :=
  "-----BEGIN CERTIFICATE-----\n" ++
    String.join ((chunks64 (base64_encode der)).map (fun l => l.asString ++ "\n")) ++
    "-----END CERTIFICATE-----\n"

lemma b64char_spec : ∀ n : Fin 64, b64char n.val ∈ base64_chars ∧ b64char n.val ≠ '=' := by
  decide

lemma b64_index_lt (b0 b1 b2 : Nat) :
    (b0 &&& 0xfc) >>> 2 < 64 ∧
    ((b0 &&& 0x03) <<< 4) + ((b1 &&& 0xf0) >>> 4) < 64 ∧
    ((b1 &&& 0x0f) <<< 2) + ((b2 &&& 0xc0) >>> 6) < 64 ∧
    b2 &&& 0x3f < 64 := by
  have h0 : b0 &&& 0xfc ≤ 0xfc := Nat.and_le_right
  have h1 : b0 &&& 0x03 ≤ 0x03 := Nat.and_le_right
  have h2 : b1 &&& 0xf0 ≤ 0xf0 := Nat.and_le_right
  have h3 : b1 &&& 0x0f ≤ 0x0f := Nat.and_le_right
  have h4 : b2 &&& 0xc0 ≤ 0xc0 := Nat.and_le_right
  have h5 : b2 &&& 0x3f ≤ 0x3f := Nat.and_le_right
  simp only [Nat.shiftRight_eq_div_pow, Nat.shiftLeft_eq]
  norm_num
  omega

lemma b64char_mem (n : Nat) (h : n < 64) : b64char n ∈ base64_chars :=
  (b64char_spec ⟨n, h⟩).1

lemma encode3_mem (b0 b1 b2 : Nat) : ∀ c ∈ encode3 b0 b1 b2, c ∈ base64_chars := by
  intro c hc
  obtain ⟨i0, i1, i2, i3⟩ := b64_index_lt b0 b1 b2
  simp only [encode3, List.mem_cons, List.not_mem_nil, or_false] at hc
  rcases hc with h | h | h | h <;> subst h <;> exact b64char_mem _ (by assumption)

lemma base64_tail_shape (bs : List Nat) :
    (bs.length % 3 = 0 → ∀ c ∈ base64_encode bs, c ∈ base64_chars) ∧
    (bs.length % 3 = 1 →
      ∃ cs, base64_encode bs = cs ++ ['=', '='] ∧ ∀ c ∈ cs, c ∈ base64_chars) ∧
    (bs.length % 3 = 2 →
      ∃ cs, base64_encode bs = cs ++ ['='] ∧ ∀ c ∈ cs, c ∈ base64_chars) := by
  induction bs using base64_encode.induct with
  | case4 =>
      refine ⟨?_, ?_, ?_⟩ <;> intro h <;> simp_all [base64_encode]
  | case3 b0 =>
      refine ⟨?_, ?_, ?_⟩ <;> intro h
      · simp at h
      · refine ⟨[b64char ((b0 &&& 0xfc) >>> 2), b64char ((b0 &&& 0x03) <<< 4)], rfl, ?_⟩
        intro c hc
        obtain ⟨i0, i1, _, _⟩ := b64_index_lt b0 0 0
        have h1 : (b0 &&& 0x03) <<< 4 < 64 := by
          have := @Nat.and_le_right b0 0x03
          simp only [Nat.shiftLeft_eq]
          omega
        simp only [List.mem_cons, List.not_mem_nil, or_false] at hc
        rcases hc with h | h <;> subst h
        · exact b64char_mem _ i0
        · exact b64char_mem _ h1
      · simp at h
  | case2 b0 b1 =>
      refine ⟨?_, ?_, ?_⟩ <;> intro h
      · simp at h
      · simp at h
      · refine ⟨[b64char ((b0 &&& 0xfc) >>> 2),
                 b64char (((b0 &&& 0x03) <<< 4) + ((b1 &&& 0xf0) >>> 4)),
                 b64char ((b1 &&& 0x0f) <<< 2)], rfl, ?_⟩
        intro c hc
        obtain ⟨i0, i1, _, _⟩ := b64_index_lt b0 b1 0
        have h2 : (b1 &&& 0x0f) <<< 2 < 64 := by
          have := @Nat.and_le_right b1 0x0f
          simp only [Nat.shiftLeft_eq]
          omega
        simp only [List.mem_cons, List.not_mem_nil, or_false] at hc
        rcases hc with h | h | h <;> subst h
        · exact b64char_mem _ i0
        · exact b64char_mem _ i1
        · exact b64char_mem _ h2
  | case1 b0 b1 b2 rest ih =>
      obtain ⟨ih0, ih1, ih2⟩ := ih
      have hlen : (b0 :: b1 :: b2 :: rest).length % 3 = rest.length % 3 := by
        simp [List.length_cons]
        omega
      refine ⟨?_, ?_, ?_⟩ <;> intro h <;> rw [hlen] at h
      · intro c hc
        rw [base64_encode] at hc
        rcases List.mem_append.1 hc with h1 | h1
        · exact encode3_mem b0 b1 b2 c h1
        · exact ih0 h c h1
      · obtain ⟨cs, hcs, hmem⟩ := ih1 h
        refine ⟨encode3 b0 b1 b2 ++ cs, ?_, ?_⟩
        · rw [base64_encode, hcs, List.append_assoc]
        · intro c hc
          rcases List.mem_append.1 hc with h1 | h1
          · exact encode3_mem b0 b1 b2 c h1
          · exact hmem c h1
      · obtain ⟨cs, hcs, hmem⟩ := ih2 h
        refine ⟨encode3 b0 b1 b2 ++ cs, ?_, ?_⟩
        · rw [base64_encode, hcs, List.append_assoc]
        · intro c hc
          rcases List.mem_append.1 hc with h1 | h1
          · exact encode3_mem b0 b1 b2 c h1
          · exact hmem c h1

lemma chunks64_join (s : List Char) : (chunks64 s).flatten = s := by
  induction s using chunks64.induct with
  | case1 => simp [chunks64]
  | case2 c rest ih =>
      rw [chunks64]
      simp only [List.flatten_cons, ih, List.take_append_drop]

lemma chunks64_le (s : List Char) : ∀ l ∈ chunks64 s, l.length ≤ 64 := by
  induction s using chunks64.induct with
  | case1 => simp [chunks64]
  | case2 c rest ih =>
      rw [chunks64]
      intro l hl
      rcases List.mem_cons.1 hl with h | h
      · subst h
        simp [List.length_take]
      · exact ih l h

/-- C4: `base64_encode` is RFC 4648 standard-alphabet base64 with `'='`
padding: the 3-byte input 0x00 0x01 0x02 yields exactly `"AAEC"`; an
input with 1 trailing byte past a multiple of 3 ends in exactly two
`'='` after alphabet characters, one with 2 trailing bytes ends in
exactly one `'='` (and `'='` is not an alphabet character); a full-group
input consists of alphabet characters only; and synthesized PEM bodies
are the base64 text split into lines of at most 64 characters whose
concatenation restores the body, inside BEGIN/END CERTIFICATE armor
(the shape of `pem_armor`). -/
theorem base64_rfc4648 (bs : List Nat) :
    base64_encode [0, 1, 2] = "AAEC".toList ∧
    (bs.length % 3 = 1 →
      ∃ cs, base64_encode bs = cs ++ ['=', '='] ∧ ∀ c ∈ cs, c ∈ base64_chars) ∧
    (bs.length % 3 = 2 →
      ∃ cs, base64_encode bs = cs ++ ['='] ∧ ∀ c ∈ cs, c ∈ base64_chars) ∧
    (bs.length % 3 = 0 → ∀ c ∈ base64_encode bs, c ∈ base64_chars) ∧
    '=' ∉ base64_chars ∧
    (∀ l ∈ chunks64 (base64_encode bs), l.length ≤ 64) ∧
    (chunks64 (base64_encode bs)).flatten = base64_encode bs ∧
    pem_armor bs =
      "-----BEGIN CERTIFICATE-----\n" ++
        String.join ((chunks64 (base64_encode bs)).map (fun l => l.asString ++ "\n")) ++
        "-----END CERTIFICATE-----\n" := by
  obtain ⟨h0, h1, h2⟩ := base64_tail_shape bs
  exact ⟨by decide, h1, h2, h0, by decide, chunks64_le _, chunks64_join _, rfl⟩

/-- Witness for C4 at the concrete inputs `[0, 1, 2, 3]` (one trailing
byte → two `'='`) — the hypothesis `4 % 3 = 1` discharged by `decide`. -/
theorem base64_rfc4648_witness :
    ∃ cs, base64_encode [0, 1, 2, 3] = cs ++ ['=', '='] ∧ ∀ c ∈ cs, c ∈ base64_chars :=
  (base64_rfc4648 [0, 1, 2, 3]).2.1 (by decide)

/-!  ## Certificate resolver (src/mqtt_client.cpp lines 30-192)

`setup_ssl_cert` consults, in order: the caller-supplied certificate
path, the platform's pre-installed bundle paths (compiled in only on
macOS / Linux), and OS trust-store extraction; an empty extraction
throws.  The filesystem (`fs::exists`), the build platform and the trust
store's content are inputs.
-/

/-- The build platform (`#ifdef _WIN32 / __APPLE__ / __linux__`). -/
inductive OSKind where
  | windows
  | macos
  | linux
  deriving DecidableEq, Repr

/-- Environment of the resolver: which paths exist on disk, the build
platform, what the platform trust-store extraction would yield
(Windows/macOS), and the process temp directory. -/
structure SslEnv where
  fsExists : String → Bool
  os : OSKind
  store_pem : String
  temp_dir : String

/-- The macOS pre-installed bundle path list of `setup_ssl_cert`. -/
def macos_cert_paths : List String :=
  ["/etc/ssl/cert.pem",
   "/usr/local/etc/openssl@3/cert.pem",
   "/usr/local/etc/openssl@1.1/cert.pem",
   "/opt/homebrew/etc/openssl@3/cert.pem",
   "/opt/homebrew/etc/openssl@1.1/cert.pem",
   "/usr/local/etc/openssl/cert.pem"]

/-- The Linux system bundle path list of `setup_ssl_cert`. -/
def linux_cert_paths : List String :=
  ["/etc/ssl/certs/ca-certificates.crt",
   "/etc/pki/tls/certs/ca-bundle.crt",
   "/etc/ssl/ca-bundle.pem",
   "/etc/ssl/cert.pem"]

/-- The `for (path : ...) if (fs::exists(path)) return path;` loops. -/
def findExisting (fsExists : String → Bool) : List String → Option String
  | [] => none
  | p :: rest => if fsExists p then some p else findExisting fsExists rest

/-- `MQTTClient::extract_system_certificates`: Windows and macOS return
the trust-store extraction; the Linux branch deliberately returns `""`
(system cert paths are used directly). -/
def extract_system_certificates (env : SslEnv) : String :=
  match env.os with
  | .windows => env.store_pem
  | .macos => env.store_pem
  | .linux => ""

/-- `fs::temp_directory_path() / ("mqtt_certs_" + client_id + ".pem")`. -/
def temp_cert_path (cfg : MQTTConfig) (env : SslEnv) : String :=
  env.temp_dir ++ "/mqtt_certs_" ++ cfg.client_id ++ ".pem"

/-- Outcome of `setup_ssl_cert`: the returned trust-store path, whether
the platform bundle-path search ran, and whether OS trust-store
extraction was attempted. -/
structure SslSetupResult where
  path : String
  bundle_path_search : Bool
  extraction_attempted : Bool
  deriving DecidableEq, Repr

/-- Step 4 of `setup_ssl_cert`: extract, throw
`"Failed to extract system certificates and no cert file provided"` on
an empty result, otherwise persist to the temp file and return its path.
(The temp-file write is assumed to succeed; its failure path is a
separate throw not involved in any claim.) -/
def extract_step (cfg : MQTTConfig) (env : SslEnv) (searched : Bool) :
    Except String SslSetupResult :=
  if extract_system_certificates env = "" then
    .error "Failed to extract system certificates and no cert file provided"
  else
    .ok ⟨temp_cert_path cfg env, searched, true⟩

/-- Steps 2-4 of `setup_ssl_cert` (after the caller-supplied path was
not used): the platform bundle-path lists are compiled in only on their
platform; otherwise fall through to extraction. -/
def setup_ssl_cert_rest (cfg : MQTTConfig) (env : SslEnv) : Except String SslSetupResult :=
  match env.os with
  | .macos =>
      match findExisting env.fsExists macos_cert_paths with
      | some p => .ok ⟨p, true, false⟩
      | none => extract_step cfg env true
  | .linux =>
      match findExisting env.fsExists linux_cert_paths with
      | some p => .ok ⟨p, true, false⟩
      | none => extract_step cfg env true
  | .windows => extract_step cfg env false

/-- `MQTTClient::setup_ssl_cert`: step 1 returns the caller-supplied
certificate path whenever it is set and exists on disk, before any
bundle-path search or extraction. -/
def setup_ssl_cert (cfg : MQTTConfig) (env : SslEnv) : Except String SslSetupResult :=
  match cfg.cert_file_path with
  | some p =>
      if env.fsExists p then .ok ⟨p, false, false⟩
      else setup_ssl_cert_rest cfg env
  | none => setup_ssl_cert_rest cfg env

/-!  ## connect_to_broker / run (src/mqtt_client.cpp lines 327-459)  -/

/-- The engine's synchronous answers to `MQTTAsync_create`,
`MQTTAsync_setCallbacks` and `MQTTAsync_connect`
(`rc == MQTTASYNC_SUCCESS`). -/
structure EngineEnv where
  create_ok : Bool
  set_callbacks_ok : Bool
  connect_ok : Bool
  deriving DecidableEq, Repr

/-- Observable outcome of one `MQTTClient::connect_to_broker` call:
its boolean return, the events it pushed, and whether
`MQTTAsync_connect` was invoked at all. -/
structure ConnectResult where
  ok : Bool
  events : List MQTTEvent
  connect_issued : Bool
  deriving DecidableEq, Repr

/-- Tail of `connect_to_broker` after SSL setup: invoke
`MQTTAsync_connect`; push `ERROR "Failed to start connect"` and fail if
the engine rejects it. -/
def connect_finish (eng : EngineEnv) : ConnectResult :=
  if eng.connect_ok = false then
    ⟨false, [eventMsg .ERROR "Failed to start connect"], true⟩
  else
    ⟨true, [], true⟩

/-- `MQTTClient::connect_to_broker`: create the client (on failure push
`ERROR "Failed to create MQTT client"`), set callbacks (on failure push
`ERROR "Failed to set callbacks"`), then — when TLS is enabled — run
`setup_ssl_cert` inside a `try`: the `catch` block only logs the
exception text to stderr, destroys the client and returns false, pushing
NO event; finally issue the asynchronous connect. -/
def connect_to_broker (cfg : MQTTConfig) (env : SslEnv) (eng : EngineEnv) : ConnectResult :=
  if eng.create_ok = false then
    ⟨false, [eventMsg .ERROR "Failed to create MQTT client"], false⟩
  else if eng.set_callbacks_ok = false then
    ⟨false, [eventMsg .ERROR "Failed to set callbacks"], false⟩
  else if cfg.use_ssl then
    match setup_ssl_cert cfg env with
    | .error _ => ⟨false, [], false⟩
    | .ok _ => connect_finish eng
  else
    connect_finish eng

/-- `MQTTClient::run`: calls `connect_to_broker` exactly once; when it
returns false, `run` logs and returns immediately — the main loop is
never entered and no retry happens. -/
def run_enters_main_loop (cfg : MQTTConfig) (env : SslEnv) (eng : EngineEnv) : Bool :=
  (connect_to_broker cfg env eng).ok

/-!  ## Theorems for claims C5, C7  -/

/-- C5: a caller-supplied certificate file path that exists on disk is
returned by the resolver exactly as given, with neither the platform
bundle-path search nor OS trust-store extraction attempted. -/
theorem user_cert_priority (cfg : MQTTConfig) (env : SslEnv) (p : String)
    (hp : cfg.cert_file_path = some p) (hex : env.fsExists p = true) :
    setup_ssl_cert cfg env = .ok ⟨p, false, false⟩ := by
  unfold setup_ssl_cert
  rw [hp]
  simp [hex]

/-- Configuration with a caller-supplied certificate path. -/
def cfgUserCert : MQTTConfig :=
  ⟨"broker.example", 8883, "cid", none, none, "/mqtt", 20, 1, 1, 60,
    some "/my/cert.pem", true, true, 1000⟩

/-- Environment in which only the caller-supplied path exists. -/
def envUserCert : SslEnv :=
  ⟨fun s => s == "/my/cert.pem", .macos, "STOREPEM", "/tmp"⟩

/-- Witness for C5 at the concrete configuration and environment. -/
theorem user_cert_priority_witness :
    setup_ssl_cert cfgUserCert envUserCert = .ok ⟨"/my/cert.pem", false, false⟩ :=
  user_cert_priority cfgUserCert envUserCert "/my/cert.pem" rfl rfl

/-- C7 counterexample: TLS on, no caller-supplied certificate, no
bundle path on disk, empty extraction (Windows build, empty trust
store), engine create/setCallbacks succeeding.  `connect_to_broker`
returns failure and never issues a connect — but it pushes NO event at
all, although the event queue is available: the thrown condition from
`setup_ssl_cert` is caught, logged to stderr and swallowed, refuting
"reported as an Error event if the event queue is available". -/
theorem cert_failure_pushes_no_event :
    connect_to_broker
        ⟨"broker.example", 8883, "cid", none, none, "/mqtt", 20, 1, 1, 60,
          none, true, true, 1000⟩
        ⟨fun _ => false, .windows, "", "/tmp"⟩
        ⟨true, true, true⟩ =
      ⟨false, [], false⟩ := by
  rfl

/-- C7 amended: when TLS is enabled, no caller-supplied certificate
path exists, no platform bundle path exists, and system extraction
yields an empty result, certificate resolution fails with the fatal
configuration error thrown by `setup_ssl_cert`; `connect_to_broker`
catches it, logs it to stderr, and returns false WITHOUT pushing any
event (in particular no Error event, although the event queue is
available) and without issuing a connect request, and the current
`run()` invocation terminates without entering its loop and without
retrying. -/
theorem cert_failure_fatal (cfg : MQTTConfig) (env : SslEnv) (eng : EngineEnv)
    (hssl : cfg.use_ssl = true)
    (huser : ∀ p, cfg.cert_file_path = some p → env.fsExists p = false)
    (hmac : findExisting env.fsExists macos_cert_paths = none)
    (hlin : findExisting env.fsExists linux_cert_paths = none)
    (hext : extract_system_certificates env = "")
    (hcr : eng.create_ok = true) (hcb : eng.set_callbacks_ok = true) :
    setup_ssl_cert cfg env =
      .error "Failed to extract system certificates and no cert file provided" ∧
    connect_to_broker cfg env eng = ⟨false, [], false⟩ ∧
    run_enters_main_loop cfg env eng = false := by
  have hsetup : setup_ssl_cert cfg env =
      .error "Failed to extract system certificates and no cert file provided" := by
    have hrest : setup_ssl_cert_rest cfg env =
        .error "Failed to extract system certificates and no cert file provided" := by
      unfold setup_ssl_cert_rest
      cases hos : env.os <;> simp [hmac, hlin, extract_step, hext]
    unfold setup_ssl_cert
    cases hcp : cfg.cert_file_path with
    | none => exact hrest
    | some p =>
        simp only [huser p hcp]
        simpa using hrest
  refine ⟨hsetup, ?_, ?_⟩
  · unfold connect_to_broker
    rw [hcr, hcb, hssl, hsetup]
    simp
  · unfold run_enters_main_loop connect_to_broker
    rw [hcr, hcb, hssl, hsetup]
    simp

/-- Witness for C7's amended theorem at the concrete Windows
environment with an empty trust store. -/
theorem cert_failure_fatal_witness :
    setup_ssl_cert
        ⟨"b", 8883, "cid", none, none, "/mqtt", 20, 1, 1, 60, none, true, true, 1000⟩
        ⟨fun _ => false, .windows, "", "/tmp"⟩ =
      .error "Failed to extract system certificates and no cert file provided" ∧
    connect_to_broker
        ⟨"b", 8883, "cid", none, none, "/mqtt", 20, 1, 1, 60, none, true, true, 1000⟩
        ⟨fun _ => false, .windows, "", "/tmp"⟩ ⟨true, true, true⟩ =
      ⟨false, [], false⟩ ∧
    run_enters_main_loop
        ⟨"b", 8883, "cid", none, none, "/mqtt", 20, 1, 1, 60, none, true, true, 1000⟩
        ⟨fun _ => false, .windows, "", "/tmp"⟩ ⟨true, true, true⟩ = false :=
  cert_failure_fatal _ _ _ rfl (fun p hp => by simp at hp) rfl rfl rfl rfl rfl

/-!  ## Timestamp access sites (claim C9)

The two `std::chrono::steady_clock::time_point` members
`last_activity_` and `last_check_time_` of `MQTTClient` are touched at
exactly these places in src/mqtt_client.cpp:

* constructor (lines 18-19): writes both, no lock held (the object is
  not yet shared);
* `detect_sleep_resume` (lines 245-265, called from
  `check_connection_health` on the session thread): reads and writes
  `last_check_time_` under `activity_mutex_`;
* `check_connection_health` (lines 267-322, the health monitor):
  reads `last_activity_` under `activity_mutex_` (line 292-295) and
  writes it via `update_last_activity` (line 321);
* `on_message_arrived` (line 559), `on_delivery_complete` (line 573),
  `on_connect_success` (line 583): engine callbacks that write
  `last_activity_` via `update_last_activity` (which locks
  `activity_mutex_`).

The table below transcribes those access sites so that the locking
discipline becomes a decidable predicate.
-/

/-- The two guarded timestamps. -/
inductive TsField where
  | lastActivity
  | lastHealthCheckTime
  deriving DecidableEq, Repr

/-- Read or write. -/
inductive TsKind where
  | tsRead
  | tsWrite
  deriving DecidableEq, Repr

/-- Which part of the client performs the access. -/
inductive OpClass where
  | healthMonitor
  | engineCallback
  | ctor
  deriving DecidableEq, Repr

/-- One access site: function name, the class of its execution context,
the field, read/write, and whether `activity_mutex_` is held. -/
structure TsAccess where
  op : String
  opClass : OpClass
  field : TsField
  kind : TsKind
  underMutex : Bool
  deriving DecidableEq, Repr

/-- All accesses to `last_activity_` / `last_check_time_` in
src/mqtt_client.cpp, transcribed site by site (see the section header
for the line numbers). -/
def tsAccesses : List TsAccess :=
  [⟨"MQTTClient::MQTTClient", .ctor, .lastActivity, .tsWrite, false⟩,
   ⟨"MQTTClient::MQTTClient", .ctor, .lastHealthCheckTime, .tsWrite, false⟩,
   ⟨"detect_sleep_resume", .healthMonitor, .lastHealthCheckTime, .tsRead, true⟩,
   ⟨"detect_sleep_resume", .healthMonitor, .lastHealthCheckTime, .tsWrite, true⟩,
   ⟨"check_connection_health", .healthMonitor, .lastActivity, .tsRead, true⟩,
   ⟨"check_connection_health", .healthMonitor, .lastActivity, .tsWrite, true⟩,
   ⟨"on_message_arrived", .engineCallback, .lastActivity, .tsWrite, true⟩,
   ⟨"on_delivery_complete", .engineCallback, .lastActivity, .tsWrite, true⟩,
   ⟨"on_connect_success", .engineCallback, .lastActivity, .tsWrite, true⟩]

/-- The property claimed of the access sites: every access under the
mutex and every write performed by the health monitor. -/
def healthMonitorSoleMutator : Bool :=
  tsAccesses.all fun a =>
    a.underMutex && (!(a.kind == TsKind.tsWrite) || (a.opClass == OpClass.healthMonitor))

/-!  ## Theorems for claim C9  -/

/-- C9 counterexample: the engine callback `on_message_arrived` writes
`last_activity_` (via `update_last_activity`), so the health monitor is
not the sole mutator of the timestamps — the claimed discipline fails
on the transcribed access sites (the constructor also initializes both
timestamps without holding the mutex). -/
theorem timestamps_not_sole_mutator :
    (⟨"on_message_arrived", .engineCallback, .lastActivity, .tsWrite, true⟩ : TsAccess)
        ∈ tsAccesses ∧
    healthMonitorSoleMutator = false := by
  decide

/-- C9 amended: every timestamp access outside the constructor (which
runs before the object is shared) holds `activity_mutex_`;
`last_check_time_` is written only by the health monitor; and every
write to either timestamp is performed by the health monitor, by an
engine callback through `update_last_activity`, or by the constructor
— so the mutators of `last_activity_` include the engine callbacks
`on_message_arrived`, `on_delivery_complete` and `on_connect_success`,
not the health monitor alone. -/
theorem timestamps_locking_discipline :
    (tsAccesses.all fun a => (a.opClass == OpClass.ctor) || a.underMutex) = true ∧
    (tsAccesses.all fun a =>
      (!((a.kind == TsKind.tsWrite) && (a.field == TsField.lastHealthCheckTime))) ||
        ((a.opClass == OpClass.healthMonitor) || (a.opClass == OpClass.ctor))) = true ∧
    (tsAccesses.all fun a =>
      (!(a.kind == TsKind.tsWrite)) ||
        ((a.opClass == OpClass.healthMonitor) || (a.opClass == OpClass.engineCallback) ||
          (a.opClass == OpClass.ctor))) = true ∧
    (tsAccesses.any fun a =>
      (a.opClass == OpClass.engineCallback) && (a.kind == TsKind.tsWrite) &&
        (a.field == TsField.lastActivity)) = true := by
  decide

end MqttWss
